import Mathlib

/-!
Verification of the Bored-API desktop client (`src/bored-api.py`).

The program is a Qt widget offering three query modes against the Bored API
endpoint: a random query, a query by key, and a query by multiple parameters.
We give a shallow embedding of the query-string builders (`query_random`,
`query_key`, `query_multi`), of the executor/renderer `_query`, and of the
output-clearing routine `_cleanup`, and prove the specified properties.

Modelling conventions:
- Python strings are Lean `String`s; Python truthiness of a string `s` is
  `s ≠ ""`.
- The HTTP layer is an oracle `http : String → Response` mapping a request
  URL to the response the server would give.  A `Response` carries the
  status code and the JSON body; `body = none` models a body that is not
  valid JSON (on which `response.json()` would raise).
- JSON values are the inductive `JValue`; JSON numbers are modelled as
  integers (the claims under verification do not depend on float
  formatting).  A parsed JSON object (a Python `dict` preserving insertion
  order) is an ordered association list `List (String × JValue)`.
- The right-hand output panel (`output_layout`) is a `List Row`; a GUI
  query action maps the prior row list and the HTTP oracle to the new row
  list together with the list of URLs actually requested.
-/

/-- Base endpoint, constant `BORED_API_URL` in the source. -/
def BORED_API_URL : String := "http://bored.api.lewagon.com/api/activity/"

/-- A JSON value as consumed from the response body. -/
inductive JValue where
  | null
  | bool (b : Bool)
  | num (n : Int)
  | str (s : String)
  deriving DecidableEq, Repr

/-- Python `str(...)` / f-string rendering of a JSON value, as produced by
`f"{value}"` in `_query` (the `requests` library maps JSON `null` to Python
`None`, which formats as `"None"`). -/
def JValue.pyStr : JValue → String
  | .null => "None"
  | .bool true => "True"
  | .bool false => "False"
  | .num n => toString n
  | .str s => s

/-- Python truthiness of a JSON value (`if error_message:` in `_query`). -/
def JValue.truthy : JValue → Bool
  | .null => false
  | .bool b => b
  | .num n => n != 0
  | .str s => s != ""

/-- Python `dict.get(k)` on a parsed JSON object, returning `none` when the
key is absent. -/
def dictGet (k : String) (obj : List (String × JValue)) : Option JValue :=
  match obj.find? (fun kv => kv.1 == k) with
  | some kv => some kv.2
  | none => none

/-- An HTTP response: the status code, and the JSON body (`none` when the
body is not valid JSON, in which case `response.json()` raises). -/
structure Response where
  status : Nat
  body : Option (List (String × JValue))
  deriving DecidableEq

/-- Outcome of `_query`'s decision logic: an error message displayed in
red, a list of (key, displayed value) pairs, or an uncaught exception (the
source does not handle `response.json()` failing). -/
inductive QueryResult where
  | error (msg : String)
  | success (pairs : List (String × String))
  | exn
  deriving DecidableEq, Repr

/-- Decision logic of `_query` (`src/bored-api.py`, lines 224-246): non-200
status is reported as a failure without touching the body; a 200 response
whose JSON body has a truthy `error` field is reported as an API error,
formatting that field's value; otherwise every top-level key/value pair is
output with the value stringified. -/
def execQuery (r : Response) : QueryResult :=
  if r.status ≠ 200 then .error ("API request failed: " ++ toString r.status)
  else
    match r.body with
    | none => .exn
    | some obj =>
      match dictGet "error" obj with
      | some v =>
        if v.truthy then .error ("API request returned error: " ++ v.pyStr)
        else .success (obj.map fun kv => (kv.1, kv.2.pyStr))
      | none => .success (obj.map fun kv => (kv.1, kv.2.pyStr))

/-- One visual row of the output panel: either a red error label added by
`_display_error` (carrying the message), or a key/value row added by
`output_layout.addRow` (carrying the two label texts `f"{key}:"` and
`f"{value}"`). -/
inductive Row where
  | error (msg : String)
  | kv (label value : String)
  deriving DecidableEq, Repr

/-- Rendering part of `_query`: an error result becomes one error row, a
success result becomes one key/value row per pair, and an uncaught
exception adds no rows. -/
def renderResult : QueryResult → List Row
  | .error m => [Row.error m]
  | .success ps => ps.map fun p => Row.kv (p.1 ++ ":") p.2
  | .exn => []

/-- The `_cleanup` loop (`src/bored-api.py`, lines 135-152): `while
output_layout.count(): takeAt(0)` removes the front row until none remain
(widget deletion is a GUI side effect with no bearing on the row list). -/
def cleanup : List Row → List Row
  | [] => []
  | _ :: rest => cleanup rest

/-- The three text fields of one query parameter in the multi-parameter
form: exact value, range minimum, range maximum.  For `type` the range
fields exist but are hidden (`_add_param_entry` with `allow_range=False`),
so `query_multi` still reads them. -/
structure ParamFields where
  exact : String
  min : String
  max : String
  deriving DecidableEq, Repr

/-- The multi-parameter form state: one `ParamFields` per hardcoded
parameter name. -/
structure MultiFields where
  type : ParamFields
  participants : ParamFields
  price : ParamFields
  accessibility : ParamFields
  deriving DecidableEq, Repr

/-- The parameter dictionaries in iteration order: `_add_param_entry` is
called for `type`, `participants`, `price`, `accessibility` in that order,
and Python dicts iterate in insertion order. -/
def multiParams (fs : MultiFields) : List (String × ParamFields) :=
  [("type", fs.type), ("participants", fs.participants),
   ("price", fs.price), ("accessibility", fs.accessibility)]

/-- Body of the `query_multi` loop for one parameter (`src/bored-api.py`,
lines 203-217): if the exact field is non-empty, append `name=value&` and
continue (skipping the range fields); otherwise append `minname=v&` and/or
`maxname=v&` for whichever of min/max is non-empty. -/
def multiStep (acc n : String) (p : ParamFields) : String :=
  if p.exact ≠ "" then acc ++ (n ++ "=" ++ p.exact ++ "&")
  else
    let acc1 := if p.min ≠ "" then acc ++ ("min" ++ n ++ "=" ++ p.min ++ "&") else acc
    if p.max ≠ "" then acc1 ++ ("max" ++ n ++ "=" ++ p.max ++ "&") else acc1

/-- The `query_tail` string built by the `query_multi` loop. -/
def query_tail (fs : MultiFields) : String :=
  (multiParams fs).foldl (fun acc np => multiStep acc np.1 np.2) ""

/-- The URL requested by `query_multi`: `f"{BORED_API_URL}?{query_tail}"`. -/
def query_multi_url (fs : MultiFields) : String :=
  BORED_API_URL ++ "?" ++ query_tail fs

/-- GUI action `query_random` (`src/bored-api.py`, lines 163-170): clear
prior output, GET the base URL, render the result.  Returns the new output
rows and the list of requested URLs. -/
def query_random (prior : List Row) (http : String → Response) :
    List Row × List String :=
  (cleanup prior ++ renderResult (execQuery (http BORED_API_URL)), [BORED_API_URL])

/-- GUI action `query_key` (`src/bored-api.py`, lines 173-189): clear prior
output; if the key field is empty (`if not key:`), display the error `No
key provided` and attempt no request; otherwise GET
`f"{BORED_API_URL}?key={key}"` and render the result. -/
def query_key (prior : List Row) (key : String) (http : String → Response) :
    List Row × List String :=
  let cleared := cleanup prior
  if key = "" then (cleared ++ [Row.error "No key provided"], [])
  else
    (cleared ++ renderResult (execQuery (http (BORED_API_URL ++ "?key=" ++ key))),
     [BORED_API_URL ++ "?key=" ++ key])

/-- GUI action `query_multi` (`src/bored-api.py`, lines 192-220): clear
prior output, build the query tail from the form fields, GET the resulting
URL, render the result. -/
def query_multi (prior : List Row) (fs : MultiFields) (http : String → Response) :
    List Row × List String :=
  (cleanup prior ++ renderResult (execQuery (http (query_multi_url fs))),
   [query_multi_url fs])

/-- The form state with every text field empty. -/
def emptyFields : MultiFields :=
  ⟨⟨"", "", ""⟩, ⟨"", "", ""⟩, ⟨"", "", ""⟩, ⟨"", "", ""⟩⟩

/-- Substring occurrence at the granularity of string concatenation:
`needle` occurs in `hay` with some material on either side. -/
def strContains (hay needle : String) : Prop :=
  ∃ a b, hay = (a ++ needle) ++ b

/-- The string `hay` ends with the string `needle`. -/
def strEndsWith (hay needle : String) : Prop :=
  ∃ a, hay = a ++ needle

/-! Helper lemmas about the builder and the output model. -/

/-- The `_cleanup` loop always empties the output panel. -/
theorem cleanup_nil (rows : List Row) : cleanup rows = [] := by
  induction rows with
  | nil => rfl
  | cons r rest ih => simpa [cleanup] using ih

/-- One loop iteration only appends to the accumulated query tail. -/
theorem multiStep_append (acc n : String) (p : ParamFields) :
    multiStep acc n p = acc ++ multiStep "" n p := by
  rcases eq_or_ne p.exact "" with h1 | h1 <;>
    rcases eq_or_ne p.min "" with h2 | h2 <;>
      rcases eq_or_ne p.max "" with h3 | h3 <;>
        simp [multiStep, h1, h2, h3, String.append_assoc]

/-- The query tail decomposes into the four per-parameter contributions in
the fixed iteration order. -/
theorem query_tail_decomp (fs : MultiFields) :
    query_tail fs =
      multiStep "" "type" fs.type ++ multiStep "" "participants" fs.participants ++
        multiStep "" "price" fs.price ++ multiStep "" "accessibility" fs.accessibility := by
  unfold query_tail multiParams
  simp only [List.foldl_cons, List.foldl_nil]
  rw [multiStep_append, multiStep_append (multiStep "" "type" fs.type)]
  rw [multiStep_append (multiStep "" "type" fs.type ++ multiStep "" "participants" fs.participants)]

theorem strContains_append_left (s t needle : String) (h : strContains s needle) :
    strContains (s ++ t) needle := by
  obtain ⟨a, b, rfl⟩ := h
  exact ⟨a, b ++ t, by simp [String.append_assoc]⟩

theorem strContains_append_right (s t needle : String) (h : strContains t needle) :
    strContains (s ++ t) needle := by
  obtain ⟨a, b, rfl⟩ := h
  exact ⟨s ++ a, b, by simp [String.append_assoc]⟩

theorem strContains_head (needle rest : String) : strContains (needle ++ rest) needle :=
  ⟨"", rest, by simp⟩

/-- When a parameter's loop contribution starts with `frag`, the whole
query tail contains `frag`. -/
theorem contains_of_param (fs : MultiFields) (n : String) (p : ParamFields)
    (hmem : (n, p) ∈ multiParams fs) (frag rest : String)
    (hc : multiStep "" n p = frag ++ rest) :
    strContains (query_tail fs) frag := by
  have hd := query_tail_decomp fs
  have hh : strContains (multiStep "" n p) frag := hc ▸ strContains_head frag rest
  simp only [multiParams, List.mem_cons, List.not_mem_nil, or_false, Prod.mk.injEq] at hmem
  rw [hd]
  rcases hmem with ⟨rfl, rfl⟩ | ⟨rfl, rfl⟩ | ⟨rfl, rfl⟩ | ⟨rfl, rfl⟩
  · exact strContains_append_left _ _ _
      (strContains_append_left _ _ _ (strContains_append_left _ _ _ hh))
  · exact strContains_append_left _ _ _
      (strContains_append_left _ _ _ (strContains_append_right _ _ _ hh))
  · exact strContains_append_left _ _ _ (strContains_append_right _ _ _ hh)
  · exact strContains_append_right _ _ _ hh

/-- A string is "&-terminated or empty": the invariant the `query_multi`
loop maintains on the accumulated tail. -/
def ampString (s : String) : Prop := s = "" ∨ strEndsWith s "&"

theorem amp_multiStep (acc n : String) (p : ParamFields) (h : ampString acc) :
    ampString (multiStep acc n p) := by
  rcases eq_or_ne p.exact "" with h1 | h1
  · rcases eq_or_ne p.min "" with h2 | h2
    · rcases eq_or_ne p.max "" with h3 | h3
      · simpa [multiStep, h1, h2, h3] using h
      · exact Or.inr ⟨acc ++ ("max" ++ n ++ "=" ++ p.max),
          by simp [multiStep, h1, h2, h3, String.append_assoc]⟩
    · rcases eq_or_ne p.max "" with h3 | h3
      · exact Or.inr ⟨acc ++ ("min" ++ n ++ "=" ++ p.min),
          by simp [multiStep, h1, h2, h3, String.append_assoc]⟩
      · exact Or.inr ⟨acc ++ ("min" ++ n ++ "=" ++ p.min ++ "&") ++ ("max" ++ n ++ "=" ++ p.max),
          by simp [multiStep, h1, h2, h3, String.append_assoc]⟩
  · exact Or.inr ⟨acc ++ (n ++ "=" ++ p.exact),
      by simp [multiStep, h1, String.append_assoc]⟩

theorem amp_query_tail (fs : MultiFields) : ampString (query_tail fs) := by
  unfold query_tail multiParams
  simp only [List.foldl_cons, List.foldl_nil]
  exact amp_multiStep _ _ _ (amp_multiStep _ _ _ (amp_multiStep _ _ _
    (amp_multiStep _ _ _ (Or.inl rfl))))

/-! The claims. -/

/-- Claim C1: for every parameter whose exact-value field is non-empty, the
built query string contains the fragment `name=value` for that parameter,
and that parameter's loop contribution is exactly `name=value&` — it
contributes neither `minname=` nor `maxname=`, regardless of what is typed
in that parameter's min and max fields. -/
theorem exact_takes_precedence (fs : MultiFields) (n : String) (p : ParamFields)
    (hmem : (n, p) ∈ multiParams fs) (hex : p.exact ≠ "") :
    strContains (query_tail fs) (n ++ "=" ++ p.exact) ∧
    multiStep "" n p = n ++ "=" ++ p.exact ++ "&" := by
  have hstep : multiStep "" n p = n ++ "=" ++ p.exact ++ "&" := by
    simp [multiStep, hex]
  exact ⟨contains_of_param fs n p hmem (n ++ "=" ++ p.exact) "&" hstep, hstep⟩

/-- Concrete multi-parameter form for the C1 witness: participants has an
exact value and both range values filled in. -/
def fsExact : MultiFields :=
  ⟨⟨"", "", ""⟩, ⟨"3", "1", "8"⟩, ⟨"", "", ""⟩, ⟨"", "", ""⟩⟩

/-- Witness for C1 at a concrete input. -/
theorem exact_takes_precedence_witness :
    (("participants", fsExact.participants) ∈ multiParams fsExact ∧
      fsExact.participants.exact ≠ "") ∧
    (strContains (query_tail fsExact) ("participants" ++ "=" ++ fsExact.participants.exact) ∧
      multiStep "" "participants" fsExact.participants =
        "participants" ++ "=" ++ fsExact.participants.exact ++ "&") :=
  ⟨⟨by decide, by decide⟩,
    exact_takes_precedence fsExact "participants" fsExact.participants (by decide) (by decide)⟩

/-- Claim C2: for every parameter whose exact and max fields are empty but
whose min field holds a non-empty value, the built query string contains
`minname=<v>` and that parameter's loop contribution is exactly
`minname=<v>&` — it contributes neither `name=` nor `maxname=`. -/
theorem min_only_contribution (fs : MultiFields) (n : String) (p : ParamFields)
    (hmem : (n, p) ∈ multiParams fs) (hex : p.exact = "") (hmax : p.max = "")
    (hmin : p.min ≠ "") :
    strContains (query_tail fs) ("min" ++ n ++ "=" ++ p.min) ∧
    multiStep "" n p = "min" ++ n ++ "=" ++ p.min ++ "&" := by
  have hstep : multiStep "" n p = "min" ++ n ++ "=" ++ p.min ++ "&" := by
    simp [multiStep, hex, hmax, hmin]
  exact ⟨contains_of_param fs n p hmem ("min" ++ n ++ "=" ++ p.min) "&" hstep, hstep⟩

/-- Concrete multi-parameter form for the C2 witness: price has only a
minimum value. -/
def fsMinOnly : MultiFields :=
  ⟨⟨"", "", ""⟩, ⟨"", "", ""⟩, ⟨"", "0.2", ""⟩, ⟨"", "", ""⟩⟩

/-- Witness for C2 at a concrete input. -/
theorem min_only_contribution_witness :
    (("price", fsMinOnly.price) ∈ multiParams fsMinOnly ∧
      fsMinOnly.price.exact = "" ∧ fsMinOnly.price.max = "" ∧ fsMinOnly.price.min ≠ "") ∧
    (strContains (query_tail fsMinOnly) ("min" ++ "price" ++ "=" ++ fsMinOnly.price.min) ∧
      multiStep "" "price" fsMinOnly.price =
        "min" ++ "price" ++ "=" ++ fsMinOnly.price.min ++ "&") :=
  ⟨⟨by decide, by decide, by decide, by decide⟩,
    min_only_contribution fsMinOnly "price" fsMinOnly.price
      (by decide) (by decide) (by decide) (by decide)⟩

/-- Claim C10: for every combination of field values, the built query tail
is the concatenation of the per-parameter contributions in the fixed order
type, participants, price, accessibility. -/
theorem fixed_parameter_order (fs : MultiFields) :
    query_tail fs =
      multiStep "" "type" fs.type ++ multiStep "" "participants" fs.participants ++
        multiStep "" "price" fs.price ++ multiStep "" "accessibility" fs.accessibility :=
  query_tail_decomp fs

/-- Claim C3: a ByKey query with an empty key displays only the validation
error row `No key provided` and attempts no request; with a non-empty key
it requests exactly the base endpoint with `?key=<k>` appended. -/
theorem key_query_validation (prior : List Row) (http : String → Response)
    (k : String) (hk : k ≠ "") :
    query_key prior "" http = ([Row.error "No key provided"], []) ∧
    (query_key prior k http).2 = [BORED_API_URL ++ "?key=" ++ k] := by
  constructor
  · simp [query_key, cleanup_nil]
  · simp [query_key, hk]

/-- Concrete HTTP oracle for witnesses: every URL answers 200 with an empty
JSON object. -/
def httpEmptyObj : String → Response := fun _ => ⟨200, some []⟩

/-- Witness for C3 at a concrete input. -/
theorem key_query_validation_witness :
    ("education" ≠ "") ∧
    (query_key [Row.kv "old:" "row"] "" httpEmptyObj = ([Row.error "No key provided"], []) ∧
      (query_key [Row.kv "old:" "row"] "education" httpEmptyObj).2 =
        [BORED_API_URL ++ "?key=" ++ "education"]) :=
  ⟨by decide, key_query_validation [Row.kv "old:" "row"] httpEmptyObj "education" (by decide)⟩

/-- Claim C4: for every response whose status code is not 200, the executor
returns the error `API request failed: <status>`; the result is the same
for every body, including an unparseable one, so the body is never parsed. -/
theorem non_200_fails (st : Nat) (body : Option (List (String × JValue)))
    (h : st ≠ 200) :
    execQuery ⟨st, body⟩ = .error ("API request failed: " ++ toString st) := by
  simp [execQuery, h]

/-- Witness for C4: status 500 with an unparseable body. -/
theorem non_200_fails_witness :
    ((500 : Nat) ≠ 200) ∧
    execQuery ⟨500, none⟩ = .error ("API request failed: " ++ toString (500 : Nat)) :=
  ⟨by decide, non_200_fails 500 none (by decide)⟩

/-- Claim C5: a 200 response whose JSON body carries a non-empty string
`error` field with message `m` yields the error `API request returned
error: <m>`, rendered as a single error row and no key/value rows. -/
theorem api_error_reported (obj : List (String × JValue)) (m : String)
    (hget : dictGet "error" obj = some (JValue.str m)) (hm : m ≠ "") :
    execQuery ⟨200, some obj⟩ = .error ("API request returned error: " ++ m) ∧
    renderResult (execQuery ⟨200, some obj⟩) =
      [Row.error ("API request returned error: " ++ m)] := by
  have h1 : execQuery ⟨200, some obj⟩ = .error ("API request returned error: " ++ m) := by
    simp [execQuery, hget, JValue.truthy, JValue.pyStr, hm]
  exact ⟨h1, by rw [h1]; rfl⟩

/-- Concrete body for the C5 witness. -/
def objApiError : List (String × JValue) := [("error", JValue.str "Not enough parameters")]

/-- Witness for C5 at a concrete input. -/
theorem api_error_reported_witness :
    (dictGet "error" objApiError = some (JValue.str "Not enough parameters") ∧
      "Not enough parameters" ≠ "") ∧
    (execQuery ⟨200, some objApiError⟩ =
        .error ("API request returned error: " ++ "Not enough parameters") ∧
      renderResult (execQuery ⟨200, some objApiError⟩) =
        [Row.error ("API request returned error: " ++ "Not enough parameters")]) :=
  ⟨⟨by decide, by decide⟩,
    api_error_reported objApiError "Not enough parameters" (by decide) (by decide)⟩

/-- Claim C6: a 200 response whose JSON body has no truthy `error` field
(absent, null, or otherwise Python-falsy) yields success with exactly one
(key, stringified value) pair per top-level key, in the order the API
returned them, non-string values stringified for display. -/
theorem success_renders_all_pairs (obj : List (String × JValue))
    (h : (dictGet "error" obj).elim false JValue.truthy = false) :
    execQuery ⟨200, some obj⟩ = .success (obj.map fun kv => (kv.1, kv.2.pyStr)) := by
  rcases hE : dictGet "error" obj with _ | v
  · simp [execQuery, hE]
  · have hv : v.truthy = false := by rw [hE] at h; exact h
    simp [execQuery, hE, hv]

/-- Concrete body for the C6 witness, with two string-valued fields and a
null field (the null `error` field is stringified as `None`). -/
def objSuccess : List (String × JValue) :=
  [("activity", JValue.str "Learn a new language"),
   ("type", JValue.str "education"),
   ("error", JValue.null)]

/-- Witness for C6 at a concrete input. -/
theorem success_renders_all_pairs_witness :
    ((dictGet "error" objSuccess).elim false JValue.truthy = false) ∧
    execQuery ⟨200, some objSuccess⟩ =
      .success (objSuccess.map fun kv => (kv.1, kv.2.pyStr)) :=
  ⟨by decide, success_renders_all_pairs objSuccess (by decide)⟩

/-- Counterexample to claim C7 as stated: with every field empty the built
query string is the base endpoint followed by a bare `?`, which does not
end with the separator `&`. -/
theorem trailing_separator_cex : ¬ strEndsWith (query_multi_url emptyFields) "&" := by
  rintro ⟨a, ha⟩
  have h1 : (query_multi_url emptyFields).data.reverse.head? = some '&' := by
    rw [ha, String.data_append, List.reverse_append]
    rfl
  have h2 : (query_multi_url emptyFields).data.reverse.head? = some '?' := by rfl
  rw [h1] at h2
  injection h2 with hc
  exact absurd hc (by decide)

/-- Claim C7 (amended): whenever the `query_multi` loop contributes at
least one fragment (the query tail is non-empty), the built query string
ends with the trailing separator `&`; with no contributions it ends with
the bare `?` instead. -/
theorem trailing_separator (fs : MultiFields) (h : query_tail fs ≠ "") :
    strEndsWith (query_multi_url fs) "&" := by
  rcases amp_query_tail fs with he | ⟨a, ha⟩
  · exact absurd he h
  · exact ⟨BORED_API_URL ++ "?" ++ a, by
      rw [query_multi_url, ha]
      simp [String.append_assoc]⟩

/-- Concrete multi-parameter form for the C7 witness. -/
def fsTyped : MultiFields :=
  ⟨⟨"education", "", ""⟩, ⟨"", "", ""⟩, ⟨"", "", ""⟩, ⟨"", "", ""⟩⟩

/-- Witness for the amended C7 at a concrete input. -/
theorem trailing_separator_witness :
    (query_tail fsTyped ≠ "") ∧ strEndsWith (query_multi_url fsTyped) "&" :=
  ⟨by decide, trailing_separator fsTyped (by decide)⟩

/-- Claim C8: every query action first empties the output panel, so its
resulting output consists exactly of the rows produced by that query. -/
theorem output_cleared_before_query (prior : List Row) (key : String)
    (fs : MultiFields) (http : String → Response) :
    cleanup prior = [] ∧
    (query_random prior http).1 = renderResult (execQuery (http BORED_API_URL)) ∧
    (query_key prior key http).1 =
      (if key = "" then [Row.error "No key provided"]
       else renderResult (execQuery (http (BORED_API_URL ++ "?key=" ++ key)))) ∧
    (query_multi prior fs http).1 = renderResult (execQuery (http (query_multi_url fs))) := by
  refine ⟨cleanup_nil prior, ?_, ?_, ?_⟩
  · simp [query_random, cleanup_nil]
  · by_cases hk : key = "" <;> simp [query_key, hk, cleanup_nil]
  · simp [query_multi, cleanup_nil]

/-- Claim C9: a ByParameters query with every field empty raises no
validation error; it performs exactly one GET, to the base endpoint
followed by a bare `?`, and its output is exactly the rendering of the
response — unlike ByKey, which rejects empty input without a request. -/
theorem empty_params_still_queries (prior : List Row) (http : String → Response) :
    query_multi_url emptyFields = BORED_API_URL ++ "?" ∧
    query_multi prior emptyFields http =
      (renderResult (execQuery (http (BORED_API_URL ++ "?"))), [BORED_API_URL ++ "?"]) ∧
    query_key prior "" http = ([Row.error "No key provided"], []) := by
  have hu : query_multi_url emptyFields = BORED_API_URL ++ "?" := by
    rw [query_multi_url, show query_tail emptyFields = "" from rfl, String.append_empty]
  refine ⟨hu, ?_, ?_⟩
  · simp [query_multi, hu, cleanup_nil]
  · simp [query_key, cleanup_nil]
